import Mathlib

/-!
Shallow embedding of the collabmate server core: the relational data model
(shared schema), the storage layer (`server/storage.ts`, `DatabaseStorage`
backed by the migration's tables, modelled as lists of rows), and the route
handlers of `server/routes.ts` that the verified properties are about.

Each Express handler becomes a pure function from the acting (authenticated)
user, the route/body parameters, a clock value `now` (the `new Date()` calls
of one request) and the store state, to a response paired with the resulting
state.  Every `await storage.…` call of the source is a separate step on the
state, in source order, so intermediate states are observable exactly where
the source commits separate statements.  The boolean `activityOk` parameter
of the mutating handlers models whether the `storage.createActivity` call
inside the handler's `try` block succeeds or throws; a throw lands in the
handler's `catch`, which responds 500 without undoing earlier writes.
-/

namespace Collabmate

/-- Roles of the `user_role` enum: `admin`, `leader`, `member`. -/
inductive Role where
  | admin
  | leader
  | member
deriving DecidableEq, Repr

/-- Statuses of the `task_status` enum. -/
inductive TaskStatus where
  | todo
  | in_progress
  | review
  | completed
deriving DecidableEq, Repr

/-- Priorities of the `task_priority` enum. -/
inductive TaskPriority where
  | high
  | medium
  | low
deriving DecidableEq, Repr

/-- Row of the `users` table. -/
structure User where
  id : Nat
  username : String
  password : String
  email : String
  name : String
  role : Role
  avatarUrl : Option String
deriving DecidableEq, Repr

/-- Row of the `workspaces` table. -/
structure Workspace where
  id : Nat
  name : String
  description : Option String
  category : Option String
  adminId : Nat
  deadline : Option Nat
  createdAt : Nat
deriving DecidableEq, Repr

/-- Row of the `workspace_members` table. -/
structure WorkspaceMember where
  id : Nat
  workspaceId : Nat
  userId : Nat
  role : Role
deriving DecidableEq, Repr

/-- Row of the `projects` table. -/
structure Project where
  id : Nat
  title : String
  description : Option String
  workspaceId : Nat
  deadline : Option Nat
  createdAt : Nat
deriving DecidableEq, Repr

/-- Row of the `project_members` table. -/
structure ProjectMember where
  id : Nat
  projectId : Nat
  userId : Nat
deriving DecidableEq, Repr

/-- Row of the `tasks` table. -/
structure Task where
  id : Nat
  title : String
  description : Option String
  status : TaskStatus
  priority : TaskPriority
  progress : Int
  projectId : Nat
  assigneeId : Nat
  createdById : Nat
  deadline : Option Nat
  createdAt : Nat
deriving DecidableEq, Repr

/-- Row of the `feedback` table.  The schema records no submitter: the only
user reference is the feedback's target. -/
structure Feedback where
  id : Nat
  targetUserId : Nat
  workspaceId : Nat
  effortScore : Int
  communicationScore : Int
  reliabilityScore : Int
  comments : Option String
  createdAt : Nat
deriving DecidableEq, Repr

/-- Row of the `activities` table. -/
structure Activity where
  id : Nat
  userId : Nat
  workspaceId : Nat
  type : String
  content : String
  entityId : Option Nat
  entityType : Option String
  createdAt : Nat
deriving DecidableEq, Repr

/-- Shape of one element of the `anonymizedFeedback` array the feedback list
route builds (routes.ts lines 447-458): exactly the eight listed fields. -/
structure AnonymizedFeedback where
  id : Nat
  workspaceId : Nat
  targetUserId : Nat
  effortScore : Int
  communicationScore : Int
  reliabilityScore : Int
  comments : Option String
  createdAt : Nat
deriving DecidableEq, Repr

/-- The relational store: one list of rows per table, plus the serial
counters that assign fresh primary keys. -/
structure State where
  users : List User
  workspaces : List Workspace
  workspaceMembers : List WorkspaceMember
  projects : List Project
  projectMembers : List ProjectMember
  tasks : List Task
  feedback : List Feedback
  activities : List Activity
  nextWorkspaceId : Nat
  nextWorkspaceMemberId : Nat
  nextProjectMemberId : Nat
  nextTaskId : Nat
  nextFeedbackId : Nat
  nextActivityId : Nat
deriving DecidableEq, Repr

/-- Argument of `storage.createWorkspace` (`InsertWorkspace` plus the
`adminId` the route fills in). -/
structure InsertWorkspace where
  name : String
  description : Option String := none
  category : Option String := none
  adminId : Nat
  deadline : Option Nat := none
deriving DecidableEq, Repr

/-- Argument of `storage.addWorkspaceMember`; `role` is optional with the
store supplying the `member` default, as in `insertMember.role || 'member'`. -/
structure InsertWorkspaceMember where
  workspaceId : Nat
  userId : Nat
  role : Option Role := none
deriving DecidableEq, Repr

/-- Argument of `storage.addProjectMember`. -/
structure InsertProjectMember where
  projectId : Nat
  userId : Nat
deriving DecidableEq, Repr

/-- Argument of `storage.createTask`; optional fields are the ones the store
defaults (`status || 'todo'`, `priority || 'medium'`, `progress || 0`,
`description ?? null`, `deadline ?? null`). -/
structure InsertTask where
  title : String
  description : Option String := none
  status : Option TaskStatus := none
  priority : Option TaskPriority := none
  progress : Option Int := none
  projectId : Nat
  assigneeId : Nat
  createdById : Nat
  deadline : Option Nat := none
deriving DecidableEq, Repr

/-- Argument of `storage.createActivity`. -/
structure InsertActivity where
  userId : Nat
  workspaceId : Nat
  type : String
  content : String
  entityId : Option Nat := none
  entityType : Option String := none
deriving DecidableEq, Repr

/-- The `Partial<Task>` payload of `storage.updateTask`: any subset of the
task's columns, each either absent or supplying a new value. -/
structure TaskUpdate where
  id : Option Nat := none
  title : Option String := none
  description : Option (Option String) := none
  status : Option TaskStatus := none
  priority : Option TaskPriority := none
  progress : Option Int := none
  projectId : Option Nat := none
  assigneeId : Option Nat := none
  createdById : Option Nat := none
  deadline : Option (Option Nat) := none
  createdAt : Option Nat := none
deriving DecidableEq, Repr

/-- Storage `getUser`: select from users where id. -/
def getUser (st : State) (id : Nat) : Option User :=
  st.users.find? (fun u => u.id == id)

/-- Storage `getWorkspace`: select from workspaces where id. -/
def getWorkspace (st : State) (id : Nat) : Option Workspace :=
  st.workspaces.find? (fun w => w.id == id)

/-- Storage `getWorkspaceMember`: select from workspace_members where
workspaceId and userId both match. -/
def getWorkspaceMember (st : State) (workspaceId userId : Nat) : Option WorkspaceMember :=
  st.workspaceMembers.find? (fun m => m.workspaceId == workspaceId && m.userId == userId)

/-- Storage `isWorkspaceMember`: membership test via `getWorkspaceMember`. -/
def isWorkspaceMember (st : State) (workspaceId userId : Nat) : Bool :=
  (getWorkspaceMember st workspaceId userId).isSome

/-- Storage `getProject`: select from projects where id. -/
def getProject (st : State) (id : Nat) : Option Project :=
  st.projects.find? (fun p => p.id == id)

/-- Storage `getTask`: select from tasks where id. -/
def getTask (st : State) (id : Nat) : Option Task :=
  st.tasks.find? (fun t => t.id == id)

/-- Storage `getFeedbackByWorkspaceId`: select from feedback where
workspaceId matches. -/
def getFeedbackByWorkspaceId (st : State) (workspaceId : Nat) : List Feedback :=
  st.feedback.filter (fun f => f.workspaceId == workspaceId)

/-- Storage `createWorkspace`: insert a workspaces row with a fresh serial id
and `createdAt := now`, returning the created row.  `none` models the insert
throwing on the migration's `workspaces_admin_id_users_id_fk` foreign key
when no users row with the given adminId exists. -/
def createWorkspace (st : State) (iw : InsertWorkspace) (now : Nat) :
    Option (Workspace × State) :=
  if (getUser st iw.adminId).isSome then
    let w : Workspace :=
      { id := st.nextWorkspaceId, name := iw.name, description := iw.description,
        category := iw.category, adminId := iw.adminId, deadline := iw.deadline,
        createdAt := now }
    some (w, { st with workspaces := st.workspaces ++ [w],
                       nextWorkspaceId := st.nextWorkspaceId + 1 })
  else
    none

/-- Storage `addWorkspaceMember`: insert a workspace_members row with a fresh
serial id and the `member` role default.  `none` models the insert throwing
on the migration's `workspace_members_workspace_id_workspaces_id_fk` or
`workspace_members_user_id_users_id_fk` foreign keys when the referenced row
does not exist.  No duplicate check is made and the migration declares no
uniqueness constraint on (workspaceId, userId). -/
def addWorkspaceMember (st : State) (im : InsertWorkspaceMember) :
    Option (WorkspaceMember × State) :=
  if (getWorkspace st im.workspaceId).isSome && (getUser st im.userId).isSome then
    let m : WorkspaceMember :=
      { id := st.nextWorkspaceMemberId, workspaceId := im.workspaceId,
        userId := im.userId, role := im.role.getD Role.member }
    some (m, { st with workspaceMembers := st.workspaceMembers ++ [m],
                       nextWorkspaceMemberId := st.nextWorkspaceMemberId + 1 })
  else
    none

/-- Storage `addProjectMember`: insert a project_members row.  `none` models
the insert throwing on the migration's project_members project_id/user_id
foreign keys when the referenced row does not exist. -/
def addProjectMember (st : State) (im : InsertProjectMember) :
    Option (ProjectMember × State) :=
  if (getProject st im.projectId).isSome && (getUser st im.userId).isSome then
    let m : ProjectMember :=
      { id := st.nextProjectMemberId, projectId := im.projectId, userId := im.userId }
    some (m, { st with projectMembers := st.projectMembers ++ [m],
                       nextProjectMemberId := st.nextProjectMemberId + 1 })
  else
    none

/-- Storage `createTask`: insert a tasks row, applying the store defaults.
`none` models the insert throwing on the migration's
`tasks_project_id_projects_id_fk`, `tasks_assignee_id_users_id_fk` or
`tasks_created_by_id_users_id_fk` foreign keys when the referenced row does
not exist. -/
def createTask (st : State) (it : InsertTask) (now : Nat) : Option (Task × State) :=
  if (getProject st it.projectId).isSome && (getUser st it.assigneeId).isSome
      && (getUser st it.createdById).isSome then
    let t : Task :=
      { id := st.nextTaskId, title := it.title, description := it.description,
        status := it.status.getD TaskStatus.todo,
        priority := it.priority.getD TaskPriority.medium,
        progress := it.progress.getD 0,
        projectId := it.projectId, assigneeId := it.assigneeId,
        createdById := it.createdById, deadline := it.deadline, createdAt := now }
    some (t, { st with tasks := st.tasks ++ [t], nextTaskId := st.nextTaskId + 1 })
  else
    none

/-- Merge of `{ ...task, ...taskUpdate }`: every field present in the payload
overrides the stored value, every absent field keeps it. -/
def applyTaskUpdate (t : Task) (u : TaskUpdate) : Task :=
  { id := u.id.getD t.id, title := u.title.getD t.title,
    description := u.description.getD t.description,
    status := u.status.getD t.status, priority := u.priority.getD t.priority,
    progress := u.progress.getD t.progress,
    projectId := u.projectId.getD t.projectId,
    assigneeId := u.assigneeId.getD t.assigneeId,
    createdById := u.createdById.getD t.createdById,
    deadline := u.deadline.getD t.deadline,
    createdAt := u.createdAt.getD t.createdAt }

/-- Storage `updateTask`: merge the payload over the stored row and write it
back where the id matches.  `none` models a throw: either the "Task not
found" throw, or the UPDATE violating a reference foreign key of the
migration (`tasks_project_id_projects_id_fk`, `tasks_assignee_id_users_id_fk`
or `tasks_created_by_id_users_id_fk`) when the payload writes one of those
columns to a value with no referenced row. -/
def updateTask (st : State) (id : Nat) (u : TaskUpdate) : Option (Task × State) :=
  match getTask st id with
  | none => none
  | some t =>
    if u.projectId.all (fun pid => (getProject st pid).isSome)
        && u.assigneeId.all (fun uid => (getUser st uid).isSome)
        && u.createdById.all (fun uid => (getUser st uid).isSome) then
      let t2 := applyTaskUpdate t u
      some (t2, { st with tasks := st.tasks.map (fun x => if x.id == id then t2 else x) })
    else
      none

/-- Storage `createActivity`: insert an activities row with a fresh serial id
and `createdAt := now`.  `none` models the insert throwing on the migration's
activities user_id/workspace_id foreign keys when the referenced row does
not exist. -/
def createActivity (st : State) (ia : InsertActivity) (now : Nat) :
    Option (Activity × State) :=
  if (getUser st ia.userId).isSome && (getWorkspace st ia.workspaceId).isSome then
    let a : Activity :=
      { id := st.nextActivityId, userId := ia.userId, workspaceId := ia.workspaceId,
        type := ia.type, content := ia.content, entityId := ia.entityId,
        entityType := ia.entityType, createdAt := now }
    some (a, { st with activities := st.activities ++ [a],
                       nextActivityId := st.nextActivityId + 1 })
  else
    none

/-- Name shown in activity text for a looked-up user: `user?.name || 'a user'`
(an absent user, or an empty name, falls back to the filler). -/
def activityUserName (st : State) (id : Nat) : String :=
  match getUser st id with
  | some u => if u.name == "" then "a user" else u.name
  | none => "a user"

/-- An HTTP response: either a JSON body with its status, or an error status
with its message. -/
inductive Resp (α : Type) where
  | ok (status : Nat) (body : α)
  | err (status : Nat) (message : String)
deriving DecidableEq, Repr

/-- Whether the response carries a body rather than an error. -/
def Resp.isOk {α : Type} : Resp α → Bool
  | .ok _ _ => true
  | .err _ _ => false

/-- Projection one feedback item undergoes in the feedback list route
(routes.ts lines 447-458): the eight listed fields, nothing else. -/
def anonymizeFeedback (item : Feedback) : AnonymizedFeedback :=
  { id := item.id, workspaceId := item.workspaceId, targetUserId := item.targetUserId,
    effortScore := item.effortScore, communicationScore := item.communicationScore,
    reliabilityScore := item.reliabilityScore, comments := item.comments,
    createdAt := item.createdAt }

/-- Body of `POST /api/workspaces` after `insertWorkspaceSchema.parse`. -/
structure WorkspaceBody where
  name : String
  description : Option String := none
  category : Option String := none
  deadline : Option Nat := none
deriving DecidableEq, Repr

/-- Body of `POST /api/workspaces/:id/members` after
`insertWorkspaceMemberSchema.parse` (workspaceId comes from the path). -/
structure WorkspaceMemberBody where
  userId : Nat
  role : Option Role := none
deriving DecidableEq, Repr

/-- Body of `POST /api/projects/:id/members` (spread as-is). -/
structure ProjectMemberBody where
  userId : Nat
deriving DecidableEq, Repr

/-- Body of `POST /api/projects/:id/tasks` after `insertTaskSchema.parse`
(projectId and createdById come from the path and the session). -/
structure TaskBody where
  title : String
  description : Option String := none
  status : Option TaskStatus := none
  priority : Option TaskPriority := none
  progress : Option Int := none
  assigneeId : Nat
  deadline : Option Nat := none
deriving DecidableEq, Repr

/-- Handler of `POST /api/workspaces` (routes.ts lines 72-104), behind the
`isAdmin` middleware, which tests the acting user's global `role` field.
The workspace insert, the member insert and the activity insert are three
separate storage calls in this order. -/
def postWorkspaces (actor : User) (body : WorkspaceBody) (now : Nat)
    (activityOk : Bool) (st : State) : Resp Workspace × State :=
  if actor.role == Role.admin then
    match createWorkspace st
      { name := body.name, description := body.description, category := body.category,
        adminId := actor.id, deadline := body.deadline } now with
    | none => (Resp.err 500 "Failed to create workspace", st)
    | some (workspace, st1) =>
      match addWorkspaceMember st1
        { workspaceId := workspace.id, userId := actor.id, role := some Role.admin } with
      | none => (Resp.err 500 "Failed to create workspace", st1)
      | some (_, st2) =>
        if activityOk then
          match createActivity st2
            { userId := actor.id, workspaceId := workspace.id, type := "workspace_created",
              content := actor.name ++ " created the workspace \"" ++ workspace.name ++ "\"",
              entityId := some workspace.id, entityType := some "workspace" } now with
          | none => (Resp.err 500 "Failed to create workspace", st2)
          | some (_, st3) => (Resp.ok 201 workspace, st3)
        else
          (Resp.err 500 "Failed to create workspace", st2)
  else
    (Resp.err 403 "Forbidden - Admin access required", st)

/-- States the `POST /api/workspaces` handler passes through on its success
path, one entry after each `await storage.…` call: the initial state, the
state after the workspace insert, after the member insert, and after the
activity insert.  Each storage call is its own database statement, so each
listed state is observable by concurrent readers. -/
def postWorkspacesStates (actor : User) (body : WorkspaceBody) (now : Nat)
    (st : State) : List State :=
  if actor.role == Role.admin then
    match createWorkspace st
      { name := body.name, description := body.description, category := body.category,
        adminId := actor.id, deadline := body.deadline } now with
    | none => [st]
    | some (workspace, st1) =>
      match addWorkspaceMember st1
        { workspaceId := workspace.id, userId := actor.id, role := some Role.admin } with
      | none => [st, st1]
      | some (_, st2) =>
        match createActivity st2
          { userId := actor.id, workspaceId := workspace.id, type := "workspace_created",
            content := actor.name ++ " created the workspace \"" ++ workspace.name ++ "\"",
            entityId := some workspace.id, entityType := some "workspace" } now with
        | none => [st, st1, st2]
        | some (_, st3) => [st, st1, st2, st3]
  else
    [st]

/-- Handler of `POST /api/workspaces/:id/members` (routes.ts lines 107-141),
behind the `isAdmin` middleware (global `role` field only): looks the
workspace up, then inserts the member row with no other check. -/
def postWorkspaceMembers (actor : User) (workspaceId : Nat)
    (body : WorkspaceMemberBody) (now : Nat) (st : State) :
    Resp WorkspaceMember × State :=
  if actor.role == Role.admin then
    match getWorkspace st workspaceId with
    | none => (Resp.err 404 "Workspace not found", st)
    | some _ =>
      match addWorkspaceMember st
        { workspaceId := workspaceId, userId := body.userId, role := body.role } with
      | none => (Resp.err 500 "Failed to add member to workspace", st)
      | some (member, st1) =>
        match createActivity st1
          { userId := actor.id, workspaceId := workspaceId, type := "member_added",
            content := actor.name ++ " added " ++ activityUserName st1 body.userId
              ++ " to the workspace",
            entityId := some body.userId, entityType := some "user" } now with
        | none => (Resp.err 500 "Failed to add member to workspace", st1)
        | some (_, st2) => (Resp.ok 201 member, st2)
  else
    (Resp.err 403 "Forbidden - Admin access required", st)

/-- Handler of `POST /api/projects/:id/members` (routes.ts lines 215-258),
behind the `isLeader` middleware (global `role` is leader or admin), then the
workspace-scoped leader/admin check, then the workspace-membership check on
the target user, which rejects with a dedicated 400 before any insert. -/
def postProjectMembers (actor : User) (projectId : Nat) (body : ProjectMemberBody)
    (now : Nat) (st : State) : Resp ProjectMember × State :=
  if actor.role == Role.leader || actor.role == Role.admin then
    match getProject st projectId with
    | none => (Resp.err 404 "Project not found", st)
    | some project =>
      match getWorkspaceMember st project.workspaceId actor.id with
      | none => (Resp.err 403 "You don\'t have permission to add project members", st)
      | some member =>
        if member.role != Role.leader && member.role != Role.admin then
          (Resp.err 403 "You don\'t have permission to add project members", st)
        else if !(isWorkspaceMember st project.workspaceId body.userId) then
          (Resp.err 400 "User must be a member of the workspace first", st)
        else
          match addProjectMember st { projectId := projectId, userId := body.userId } with
          | none => (Resp.err 500 "Failed to add member to project", st)
          | some (projectMember, st1) =>
            match createActivity st1
              { userId := actor.id, workspaceId := project.workspaceId,
                type := "project_member_added",
                content := actor.name ++ " added " ++ activityUserName st1 body.userId
                  ++ " to the project \"" ++ project.title ++ "\"",
                entityId := some projectId, entityType := some "project" } now with
            | none => (Resp.err 500 "Failed to add member to project", st1)
            | some (_, st2) => (Resp.ok 201 projectMember, st2)
  else
    (Resp.err 403 "Forbidden - Leader access required", st)

/-- Handler of `POST /api/projects/:id/tasks` (routes.ts lines 283-329),
behind `isAuthenticated` only: the acting user must be a workspace member,
and a plain `member` may only assign to themselves; no check at all is made
on the assignee's membership.  `activityOk = false` models the activity
insert throwing after the task insert already committed. -/
def postProjectTasks (actor : User) (projectId : Nat) (body : TaskBody)
    (now : Nat) (activityOk : Bool) (st : State) : Resp Task × State :=
  match getProject st projectId with
  | none => (Resp.err 404 "Project not found", st)
  | some project =>
    match getWorkspaceMember st project.workspaceId actor.id with
    | none => (Resp.err 403 "You don\'t have access to this project", st)
    | some workspaceMember =>
      if workspaceMember.role == Role.member && body.assigneeId != actor.id then
        (Resp.err 403 "Members can only create tasks for themselves", st)
      else
        match createTask st
          { title := body.title, description := body.description, status := body.status,
            priority := body.priority, progress := body.progress, projectId := projectId,
            assigneeId := body.assigneeId, createdById := actor.id,
            deadline := body.deadline } now with
        | none => (Resp.err 500 "Failed to create task", st)
        | some (task, st1) =>
          if activityOk then
            match createActivity st1
              { userId := actor.id, workspaceId := project.workspaceId,
                type := "task_created",
                content := actor.name ++ " created task \"" ++ task.title
                  ++ "\" and assigned it to " ++ activityUserName st1 body.assigneeId,
                entityId := some task.id, entityType := some "task" } now with
            | none => (Resp.err 500 "Failed to create task", st1)
            | some (_, st2) => (Resp.ok 201 task, st2)
          else
            (Resp.err 500 "Failed to create task", st1)

/-- Handler of `PUT /api/tasks/:id` (routes.ts lines 353-395), behind
`isAuthenticated` only: the acting user must be a workspace member of the
task's project's workspace, a plain `member` may only update tasks assigned
to them, and the raw request body is merged over the stored task. -/
def putTasks (actor : User) (taskId : Nat) (body : TaskUpdate) (now : Nat)
    (activityOk : Bool) (st : State) : Resp Task × State :=
  match getTask st taskId with
  | none => (Resp.err 404 "Task not found", st)
  | some task =>
    match getProject st task.projectId with
    | none => (Resp.err 404 "Project not found", st)
    | some project =>
      match getWorkspaceMember st project.workspaceId actor.id with
      | none => (Resp.err 403 "You don\'t have access to this task", st)
      | some workspaceMember =>
        if workspaceMember.role == Role.member && task.assigneeId != actor.id then
          (Resp.err 403 "You can only update tasks assigned to you", st)
        else
          match updateTask st taskId body with
          | none => (Resp.err 500 "Failed to update task", st)
          | some (updatedTask, st1) =>
            if activityOk then
              match createActivity st1
                { userId := actor.id, workspaceId := project.workspaceId,
                  type := "task_updated",
                  content := actor.name ++ " updated task \"" ++ task.title ++ "\"",
                  entityId := some task.id, entityType := some "task" } now with
              | none => (Resp.err 500 "Failed to update task", st1)
              | some (_, st2) => (Resp.ok 200 updatedTask, st2)
            else
              (Resp.err 500 "Failed to update task", st1)

/-- Handler of `GET /api/workspaces/:id/feedback` (routes.ts lines 434-464),
behind the `isLeader` middleware (global `role` is leader or admin), then the
workspace-scoped leader/admin check; the stored rows are mapped through the
anonymizing projection before they are returned.  Read-only: the state is
unchanged. -/
def getWorkspaceFeedback (actor : User) (workspaceId : Nat) (st : State) :
    Resp (List AnonymizedFeedback) :=
  if actor.role == Role.leader || actor.role == Role.admin then
    match getWorkspaceMember st workspaceId actor.id with
    | none => (Resp.err 403 "You don\'t have permission to view feedback")
    | some member =>
      if member.role != Role.leader && member.role != Role.admin then
        Resp.err 403 "You don\'t have permission to view feedback"
      else
        Resp.ok 200 ((getFeedbackByWorkspaceId st workspaceId).map anonymizeFeedback)
  else
    Resp.err 403 "Forbidden - Leader access required"

/-- State with all tables empty and all serial counters at 1. -/
def emptyState : State :=
  { users := [], workspaces := [], workspaceMembers := [], projects := [],
    projectMembers := [], tasks := [], feedback := [], activities := [],
    nextWorkspaceId := 1, nextWorkspaceMemberId := 1, nextProjectMemberId := 1,
    nextTaskId := 1, nextFeedbackId := 1, nextActivityId := 1 }

/-- Sample user whose global role is `admin`. -/
def alice : User :=
  { id := 1, username := "alice", password := "pw", email := "a@example.com",
    name := "Alice", role := Role.admin, avatarUrl := none }

/-- Sample user whose global role is `member`. -/
def bob : User :=
  { id := 2, username := "bob", password := "pw", email := "b@example.com",
    name := "Bob", role := Role.member, avatarUrl := none }

/-- Sample user whose global role is `member` (given workspace roles in the
fixtures below). -/
def carol : User :=
  { id := 3, username := "carol", password := "pw", email := "c@example.com",
    name := "Carol", role := Role.member, avatarUrl := none }

/-- Sample workspace with id 1 owned by user 1. -/
def ws1 : Workspace :=
  { id := 1, name := "W1", description := none, category := none, adminId := 1,
    deadline := none, createdAt := 0 }

/-- Sample project with id 1 in workspace 1. -/
def project1 : Project :=
  { id := 1, title := "P1", description := none, workspaceId := 1,
    deadline := none, createdAt := 0 }

/-- Sample stored feedback row in workspace 1 targeting user 2. -/
def feedback1 : Feedback :=
  { id := 1, targetUserId := 2, workspaceId := 1, effortScore := 5,
    communicationScore := 4, reliabilityScore := 3, comments := some "solid work",
    createdAt := 10 }

/-- Sample stored task in project 1, assigned to user 2, created by user 3. -/
def task1 : Task :=
  { id := 1, title := "T1", description := none, status := TaskStatus.todo,
    priority := TaskPriority.medium, progress := 0, projectId := 1,
    assigneeId := 2, createdById := 3, deadline := none, createdAt := 4 }

/-- Finding nothing in the left part of an appended list defers to the right
part. -/
theorem find?_append_left_none {α : Type} (p : α → Bool) (l1 l2 : List α)
    (h : l1.find? p = none) : (l1 ++ l2).find? p = l2.find? p := by
  rw [List.find?_append, h, Option.none_or]

/-- A users lookup ignores a write to the workspace_members table. -/
theorem getUser_after_member_insert (st : State) (l : List WorkspaceMember)
    (n id : Nat) :
    getUser { st with workspaceMembers := l, nextWorkspaceMemberId := n } id
      = getUser st id := rfl

/-- A workspaces lookup ignores a write to the workspace_members table. -/
theorem getWorkspace_after_member_insert (st : State) (l : List WorkspaceMember)
    (n id : Nat) :
    getWorkspace { st with workspaceMembers := l, nextWorkspaceMemberId := n } id
      = getWorkspace st id := rfl

/-- A users lookup ignores a write to the tasks table. -/
theorem getUser_after_task_insert (st : State) (l : List Task) (n id : Nat) :
    getUser { st with tasks := l, nextTaskId := n } id = getUser st id := rfl

/-- A workspaces lookup ignores a write to the tasks table. -/
theorem getWorkspace_after_task_insert (st : State) (l : List Task) (n id : Nat) :
    getWorkspace { st with tasks := l, nextTaskId := n } id = getWorkspace st id := rfl

/-- A users lookup ignores an in-place update of the tasks table. -/
theorem getUser_after_task_update (st : State) (l : List Task) (id : Nat) :
    getUser { st with tasks := l } id = getUser st id := rfl

/-- A workspaces lookup ignores an in-place update of the tasks table. -/
theorem getWorkspace_after_task_update (st : State) (l : List Task) (id : Nat) :
    getWorkspace { st with tasks := l } id = getWorkspace st id := rfl

/-- A users lookup ignores a write to the workspaces table. -/
theorem getUser_after_workspace_insert (st : State) (l : List Workspace)
    (n id : Nat) :
    getUser { st with workspaces := l, nextWorkspaceId := n } id = getUser st id := rfl

/-- A workspaces lookup after a workspace insert searches the appended
table. -/
theorem getWorkspace_after_workspace_insert (st : State) (l : List Workspace)
    (n id : Nat) :
    getWorkspace { st with workspaces := l, nextWorkspaceId := n } id
      = l.find? (fun w => w.id == id) := rfl

/-- State for exercising the feedback list route: workspace 1 with user 1
enrolled as workspace admin and one stored feedback row. -/
def stC1 : State :=
  { emptyState with
    users := [alice, bob], workspaces := [ws1],
    workspaceMembers := [{ id := 1, workspaceId := 1, userId := 1, role := Role.admin }],
    feedback := [feedback1],
    nextWorkspaceId := 2, nextWorkspaceMemberId := 2, nextFeedbackId := 2 }

/-- C1: for every call to the feedback list route that succeeds — whoever the
caller is, admin included — the returned collection is exactly the stored
rows passed through `anonymizeFeedback`, whose result type exposes only
{id, workspaceId, targetUserId, effortScore, communicationScore,
reliabilityScore, comments, createdAt} and carries no field identifying a
submitter (the feedback schema itself stores none). -/
theorem listFeedback_success_is_anonymized_projection
    (actor : User) (workspaceId : Nat) (st : State) (body : List AnonymizedFeedback)
    (h : getWorkspaceFeedback actor workspaceId st = Resp.ok 200 body) :
    body = (getFeedbackByWorkspaceId st workspaceId).map anonymizeFeedback ∧
      ∀ f : Feedback, anonymizeFeedback f =
        { id := f.id, workspaceId := f.workspaceId, targetUserId := f.targetUserId,
          effortScore := f.effortScore, communicationScore := f.communicationScore,
          reliabilityScore := f.reliabilityScore, comments := f.comments,
          createdAt := f.createdAt } := by
  refine ⟨?_, fun f => rfl⟩
  unfold getWorkspaceFeedback at h
  split at h
  · split at h
    · exact absurd h (by simp)
    · split at h
      · exact absurd h (by simp)
      · exact ((Resp.ok.injEq _ _ _ _).mp h).2.symm
  · exact absurd h (by simp)

/-- Witness for C1 at a concrete admin caller and one stored row. -/
theorem listFeedback_success_is_anonymized_projection_witness :
    ([anonymizeFeedback feedback1] : List AnonymizedFeedback)
        = (getFeedbackByWorkspaceId stC1 1).map anonymizeFeedback ∧
      ∀ f : Feedback, anonymizeFeedback f =
        { id := f.id, workspaceId := f.workspaceId, targetUserId := f.targetUserId,
          effortScore := f.effortScore, communicationScore := f.communicationScore,
          reliabilityScore := f.reliabilityScore, comments := f.comments,
          createdAt := f.createdAt } :=
  listFeedback_success_is_anonymized_projection alice 1 stC1 [anonymizeFeedback feedback1] rfl

/-- State for exercising the add-member route: workspace 1 exists and has no
members at all. -/
def stC2 : State :=
  { emptyState with users := [alice, bob], workspaces := [ws1], nextWorkspaceId := 2 }

/-- C2 counterexample: a caller whose global role is `admin` but who holds no
WorkspaceMember record in workspace 1 — in particular not workspace-role
`admin` — succeeds in adding a member, so the claimed workspace-role gate
does not exist. -/
theorem addWorkspaceMember_succeeds_without_workspace_role :
    (postWorkspaceMembers alice 1 { userId := 2 } 5 stC2).1
        = Resp.ok 201 { id := 1, workspaceId := 1, userId := 2, role := Role.member } ∧
      getWorkspaceMember stC2 1 alice.id = none :=
  ⟨rfl, rfl⟩

/-- C2 amended: the add-workspace-member route is gated only by the acting
user's global `role` field (the `isAdmin` middleware), the workspace's
existence, and the inserts' foreign keys (the target user and the acting
user must exist in the users table); the acting user's workspace-role is
never consulted. -/
theorem addWorkspaceMember_gated_by_global_role_only
    (actor : User) (workspaceId : Nat) (body : WorkspaceMemberBody) (now : Nat)
    (st : State) :
    (postWorkspaceMembers actor workspaceId body now st).1.isOk = true ↔
      (actor.role = Role.admin ∧ (getWorkspace st workspaceId).isSome = true ∧
        (getUser st body.userId).isSome = true ∧ (getUser st actor.id).isSome = true) := by
  unfold postWorkspaceMembers
  by_cases hadm : actor.role = Role.admin
  · cases hg : getWorkspace st workspaceId with
    | none => simp [hadm, hg, Resp.isOk]
    | some w =>
      cases hu : (getUser st body.userId).isSome with
      | false => simp [hadm, hg, hu, addWorkspaceMember, Resp.isOk]
      | true =>
        cases ha : (getUser st actor.id).isSome with
        | false =>
          simp [hadm, hg, hu, ha, addWorkspaceMember, createActivity,
            getUser_after_member_insert, getWorkspace_after_member_insert, Resp.isOk]
        | true =>
          simp [hadm, hg, hu, ha, addWorkspaceMember, createActivity,
            getUser_after_member_insert, getWorkspace_after_member_insert, Resp.isOk]
  · simp [hadm, Resp.isOk, fun hc => hadm (by simpa using hc)]

/-- State for exercising workspace creation: only user 1 registered. -/
def stC3 : State := { emptyState with users := [alice] }

/-- Store state right after the workspace insert of
`postWorkspaces alice { name := "W" } 7 _ stC3`, before the member insert. -/
def st1C3 : State :=
  { stC3 with
    workspaces := [{ id := 1, name := "W", description := none, category := none,
                     adminId := 1, deadline := none, createdAt := 7 }],
    nextWorkspaceId := 2 }

/-- C3 counterexample: the second state the create-workspace handler passes
through (after `storage.createWorkspace`, before `storage.addWorkspaceMember`,
a separate statement) holds the new workspace with an empty
workspace_members table — an observable intermediate state in which the
workspace exists without its admin member. -/
theorem createWorkspace_memberless_intermediate_state :
    (postWorkspacesStates alice { name := "W" } 7 stC3)[1]? = some st1C3 ∧
      st1C3.workspaceMembers = [] ∧
      getWorkspace st1C3 1 = some
        { id := 1, name := "W", description := none,
          category := none, adminId := 1, deadline := none, createdAt := 7 } :=
  ⟨rfl, rfl, rfl⟩

/-- C3 amended: after every successful createWorkspace call the creator is a
WorkspaceMember of the new workspace with role `admin` (provided no stale
member row already cites an unassigned workspace id), but the workspace
insert and the member insert are separate sequential storage calls, so an
intermediate state in which the workspace exists with no member is
observable between them. -/
theorem createWorkspace_creator_enrolled_admin_on_success
    (actor : User) (body : WorkspaceBody) (now : Nat) (activityOk : Bool) (st : State)
    (w : Workspace)
    (hfresh : ∀ m ∈ st.workspaceMembers, m.workspaceId < st.nextWorkspaceId)
    (h : (postWorkspaces actor body now activityOk st).1 = Resp.ok 201 w) :
    ∃ m, getWorkspaceMember (postWorkspaces actor body now activityOk st).2 w.id actor.id
        = some m ∧ m.role = Role.admin := by
  unfold postWorkspaces at h ⊢
  split at h
  case isFalse => exact absurd h (by simp)
  case isTrue hadm =>
    rw [if_pos hadm]
    cases hcw : createWorkspace st
        { name := body.name, description := body.description, category := body.category,
          adminId := actor.id, deadline := body.deadline } now with
    | none => rw [hcw] at h; exact absurd h (by simp)
    | some ws1 =>
      obtain ⟨wrec, st1⟩ := ws1
      simp only [hcw] at h ⊢
      unfold createWorkspace at hcw
      split at hcw
      case isFalse => exact absurd hcw (by simp)
      case isTrue hu =>
        dsimp only at hcw
        injection hcw with hpair
        injection hpair with hw1 hst1
        have hwid : wrec.id = st.nextWorkspaceId := by rw [← hw1]
        have hst1m : st1.workspaceMembers = st.workspaceMembers := by rw [← hst1]
        cases ham : addWorkspaceMember st1
            { workspaceId := wrec.id, userId := actor.id, role := some Role.admin } with
        | none => rw [ham] at h; exact absurd h (by simp)
        | some ms2 =>
          obtain ⟨mrec, st2⟩ := ms2
          simp only [ham] at h ⊢
          unfold addWorkspaceMember at ham
          split at ham
          case isFalse => exact absurd ham (by simp)
          case isTrue hfk =>
            dsimp only at ham
            injection ham with hpair2
            injection hpair2 with hm2 hst2
            have hmw : mrec.workspaceId = wrec.id := by rw [← hm2]
            have hmu : mrec.userId = actor.id := by rw [← hm2]
            have hmrole : mrec.role = Role.admin := by rw [← hm2]; rfl
            have hst2m : st2.workspaceMembers = st1.workspaceMembers ++ [mrec] := by
              rw [← hst2, ← hm2]
            split at h
            case isFalse => exact absurd h (by simp)
            case isTrue hao =>
              rw [if_pos hao]
              cases hca : createActivity st2
                  { userId := actor.id, workspaceId := wrec.id,
                    type := "workspace_created",
                    content := actor.name ++ " created the workspace \""
                      ++ wrec.name ++ "\"",
                    entityId := some wrec.id, entityType := some "workspace" } now with
              | none => rw [hca] at h; exact absurd h (by simp)
              | some as3 =>
                obtain ⟨arec, st3⟩ := as3
                simp only [hca] at h ⊢
                unfold createActivity at hca
                split at hca
                case isFalse => exact absurd hca (by simp)
                case isTrue hfa =>
                  dsimp only at hca
                  injection hca with hpair3
                  injection hpair3 with ha3 hst3
                  have hst3m : st3.workspaceMembers = st2.workspaceMembers := by
                    rw [← hst3]
                  have hw : wrec = w := ((Resp.ok.injEq _ _ _ _).mp h).2
                  refine ⟨mrec, ?_, hmrole⟩
                  unfold getWorkspaceMember
                  rw [hst3m, hst2m, hst1m]
                  rw [find?_append_left_none]
                  · have hpm : (fun mm : WorkspaceMember =>
                        mm.workspaceId == w.id && mm.userId == actor.id) mrec = true := by
                      simp [hmw, hmu, ← hw]
                    simp [List.find?, hpm]
                  · rw [List.find?_eq_none]
                    intro m hm
                    have hlt := hfresh m hm
                    simp only [Bool.and_eq_true, beq_iff_eq, not_and]
                    intro hmwid
                    rw [← hw, hwid] at hmwid
                    omega

/-- Witness for C3 at the concrete creation out of `stC3`. -/
theorem createWorkspace_creator_enrolled_admin_on_success_witness :
    ∃ m, getWorkspaceMember (postWorkspaces alice { name := "W" } 7 true stC3).2
        ({ id := 1, name := "W", description := none, category := none, adminId := 1,
           deadline := none, createdAt := 7 } : Workspace).id alice.id
        = some m ∧ m.role = Role.admin :=
  createWorkspace_creator_enrolled_admin_on_success alice { name := "W" } 7 true stC3
    { id := 1, name := "W", description := none, category := none, adminId := 1,
      deadline := none, createdAt := 7 }
    (fun m hm => absurd hm (by simp [stC3, emptyState])) rfl

/-- State for exercising task creation by a workspace leader: Carol is a
workspace-role leader of workspace 1, which owns project 1; Bob (user 2)
exists in the users table but is not a WorkspaceMember of any workspace. -/
def stC4 : State :=
  { emptyState with
    users := [alice, bob, carol], workspaces := [ws1], projects := [project1],
    workspaceMembers := [{ id := 1, workspaceId := 1, userId := 3, role := Role.leader }],
    nextWorkspaceId := 2, nextWorkspaceMemberId := 2 }

/-- C4 counterexample: a workspace leader creates a task whose assignee Bob
exists as a User (so every insert foreign key is satisfied) but is not a
WorkspaceMember of the project's workspace; the call succeeds and the task
is stored. -/
theorem createTask_accepts_nonmember_assignee :
    (postProjectTasks carol 1 { title := "T", assigneeId := 2 } 8 true stC4).1
        = Resp.ok 201
          { id := 1, title := "T", description := none, status := TaskStatus.todo,
            priority := TaskPriority.medium, progress := 0, projectId := 1,
            assigneeId := 2, createdById := 3, deadline := none, createdAt := 8 } ∧
      isWorkspaceMember stC4 1 2 = false ∧
      (postProjectTasks carol 1 { title := "T", assigneeId := 2 } 8 true stC4).2.tasks
        = [{ id := 1, title := "T", description := none, status := TaskStatus.todo,
             priority := TaskPriority.medium, progress := 0, projectId := 1,
             assigneeId := 2, createdById := 3, deadline := none, createdAt := 8 }] :=
  ⟨rfl, rfl, rfl⟩

/-- C4 amended: the create-task route never checks the assignee's workspace
membership — only the assignee's existence as a User, through the insert's
foreign key; the only membership-shaped restriction is that an acting user
whose workspace-role is exactly `member` must assign to themselves, in which
case the created task's assignee is indeed a member of the project's
workspace (namely the acting user); a leader or admin may assign to any
existing user, member of the workspace or not. -/
theorem createTask_member_actor_assignee_is_member
    (actor : User) (projectId : Nat) (body : TaskBody) (now : Nat) (activityOk : Bool)
    (st : State) (project : Project) (wm : WorkspaceMember) (t : Task) (st2 : State)
    (hp : getProject st projectId = some project)
    (hm : getWorkspaceMember st project.workspaceId actor.id = some wm)
    (hrole : wm.role = Role.member)
    (h : postProjectTasks actor projectId body now activityOk st = (Resp.ok 201 t, st2)) :
    t.assigneeId = actor.id ∧
      isWorkspaceMember st project.workspaceId t.assigneeId = true := by
  simp only [postProjectTasks, hp, hm] at h
  split at h
  case isTrue =>
    have := congrArg Prod.fst h
    simp at this
  case isFalse hcond =>
    have hself : body.assigneeId = actor.id := by
      rw [hrole] at hcond
      simpa using hcond
    cases hct : createTask st
        { title := body.title, description := body.description, status := body.status,
          priority := body.priority, progress := body.progress, projectId := projectId,
          assigneeId := body.assigneeId, createdById := actor.id,
          deadline := body.deadline } now with
    | none =>
      simp only [hct] at h
      exact absurd (congrArg Prod.fst h) (by simp)
    | some ts1 =>
      obtain ⟨task, st1⟩ := ts1
      simp only [hct] at h
      unfold createTask at hct
      split at hct
      case isFalse => exact absurd hct (by simp)
      case isTrue hfk =>
        dsimp only at hct
        injection hct with hpair
        injection hpair with htask hst1
        have hta : task.assigneeId = body.assigneeId := by rw [← htask]
        split at h
        case isFalse => exact absurd (congrArg Prod.fst h) (by simp)
        case isTrue hao =>
          cases hca : createActivity st1
              { userId := actor.id, workspaceId := project.workspaceId,
                type := "task_created",
                content := actor.name ++ " created task \"" ++ task.title
                  ++ "\" and assigned it to " ++ activityUserName st1 body.assigneeId,
                entityId := some task.id, entityType := some "task" } now with
          | none =>
            simp only [hca] at h
            exact absurd (congrArg Prod.fst h) (by simp)
          | some as2 =>
            obtain ⟨arec, st2x⟩ := as2
            simp only [hca] at h
            have h1 := congrArg Prod.fst h
            simp only [Prod.fst] at h1
            have ht : task = t := ((Resp.ok.injEq _ _ _ _).mp h1).2
            rw [← ht, hta, hself]
            exact ⟨rfl, by simp [isWorkspaceMember, hm]⟩

/-- State in which Bob is a plain workspace-role `member` of workspace 1,
which owns project 1. -/
def stC4w : State :=
  { emptyState with
    users := [alice, bob], workspaces := [ws1], projects := [project1],
    workspaceMembers := [{ id := 1, workspaceId := 1, userId := 2, role := Role.member }],
    nextWorkspaceId := 2, nextWorkspaceMemberId := 2 }

/-- Witness for C4's amended statement: the member Bob creating a task
assigned to himself. -/
theorem createTask_member_actor_assignee_is_member_witness :
    ({ id := 1, title := "T", description := none, status := TaskStatus.todo,
       priority := TaskPriority.medium, progress := 0, projectId := 1, assigneeId := 2,
       createdById := 2, deadline := none, createdAt := 8 } : Task).assigneeId = bob.id ∧
      isWorkspaceMember stC4w project1.workspaceId
        ({ id := 1, title := "T", description := none, status := TaskStatus.todo,
           priority := TaskPriority.medium, progress := 0, projectId := 1, assigneeId := 2,
           createdById := 2, deadline := none, createdAt := 8 } : Task).assigneeId = true :=
  createTask_member_actor_assignee_is_member bob 1 { title := "T", assigneeId := 2 } 8 true
    stC4w project1 { id := 1, workspaceId := 1, userId := 2, role := Role.member }
    { id := 1, title := "T", description := none, status := TaskStatus.todo,
      priority := TaskPriority.medium, progress := 0, projectId := 1, assigneeId := 2,
      createdById := 2, deadline := none, createdAt := 8 }
    (postProjectTasks bob 1 { title := "T", assigneeId := 2 } 8 true stC4w).2
    rfl rfl rfl rfl

/-- Second sample project, with id 2 in workspace 1, so that rewriting a
task's parent link to it satisfies `tasks_project_id_projects_id_fk`. -/
def project2 : Project :=
  { id := 2, title := "P2", description := none, workspaceId := 1,
    deadline := none, createdAt := 0 }

/-- State holding a stored task for exercising the update route: Alice is a
workspace-role admin of workspace 1; task 1 lives in project 1 of
workspace 1, and project 2 also exists. -/
def stC5 : State :=
  { emptyState with
    users := [alice, bob, carol], workspaces := [ws1],
    projects := [project1, project2],
    workspaceMembers := [{ id := 1, workspaceId := 1, userId := 1, role := Role.admin }],
    tasks := [task1],
    nextWorkspaceId := 2, nextWorkspaceMemberId := 2, nextTaskId := 2 }

/-- C5 counterexample: a successful task update whose payload carries a
`projectId` (naming the existing project 2, so the foreign key is satisfied)
silently rewrites the task's immutable parent link from project 1 to
project 2. -/
theorem updateTask_overwrites_immutable_parent_link :
    (putTasks alice 1 { projectId := some 2 } 9 true stC5).1
        = Resp.ok 200 { task1 with projectId := 2 } ∧
      task1.projectId = 1 ∧
      (putTasks alice 1 { projectId := some 2 } 9 true stC5).2.tasks
        = [{ task1 with projectId := 2 }] :=
  ⟨rfl, rfl, rfl⟩

/-- C5 amended: the update merges exactly the fields present in the payload,
so a successful update whose payload leaves id, projectId, createdById and
createdAt absent preserves those four fields; a payload may however supply
any of them and have it written. -/
theorem updateTask_preserves_fields_absent_from_payload
    (actor : User) (taskId : Nat) (body : TaskUpdate) (now : Nat) (activityOk : Bool)
    (st : State) (t0 t : Task) (st2 : State)
    (h0 : getTask st taskId = some t0)
    (hid : body.id = none) (hpid : body.projectId = none)
    (hcb : body.createdById = none) (hca : body.createdAt = none)
    (h : putTasks actor taskId body now activityOk st = (Resp.ok 200 t, st2)) :
    t.id = t0.id ∧ t.projectId = t0.projectId ∧ t.createdById = t0.createdById ∧
      t.createdAt = t0.createdAt := by
  simp only [putTasks, h0] at h
  split at h
  case h_1 => exact absurd (congrArg Prod.fst h) (by simp)
  case h_2 project hproj =>
    split at h
    case h_1 => exact absurd (congrArg Prod.fst h) (by simp)
    case h_2 wm hwm =>
      split at h
      case isTrue => exact absurd (congrArg Prod.fst h) (by simp)
      case isFalse =>
        cases hut : updateTask st taskId body with
        | none =>
          simp only [hut] at h
          exact absurd (congrArg Prod.fst h) (by simp)
        | some us1 =>
          obtain ⟨ut, st1⟩ := us1
          simp only [hut] at h
          unfold updateTask at hut
          rw [h0] at hut
          dsimp only at hut
          split at hut
          case isFalse => exact absurd hut (by simp)
          case isTrue hfk =>
            injection hut with hpair
            injection hpair with hut2 hst1
            split at h
            case isFalse => exact absurd (congrArg Prod.fst h) (by simp)
            case isTrue hao =>
              cases hact : createActivity st1
                  { userId := actor.id, workspaceId := project.workspaceId,
                    type := "task_updated",
                    content := actor.name ++ " updated task \"" ++ t0.title ++ "\"",
                    entityId := some t0.id, entityType := some "task" } now with
              | none =>
                simp only [hact] at h
                exact absurd (congrArg Prod.fst h) (by simp)
              | some as2 =>
                obtain ⟨arec, st2x⟩ := as2
                simp only [hact] at h
                have h1 := congrArg Prod.fst h
                simp only [Prod.fst] at h1
                have ht : ut = t := ((Resp.ok.injEq _ _ _ _).mp h1).2
                rw [← ht, ← hut2]
                simp [applyTaskUpdate, hid, hpid, hcb, hca]

/-- Witness for C5's amended statement: a status-only update out of `stC5`
keeps the four immutable fields. -/
theorem updateTask_preserves_fields_absent_from_payload_witness :
    ({ task1 with status := TaskStatus.completed } : Task).id = task1.id ∧
      ({ task1 with status := TaskStatus.completed } : Task).projectId = task1.projectId ∧
      ({ task1 with status := TaskStatus.completed } : Task).createdById = task1.createdById ∧
      ({ task1 with status := TaskStatus.completed } : Task).createdAt = task1.createdAt :=
  updateTask_preserves_fields_absent_from_payload alice 1
    { status := some TaskStatus.completed } 9 true stC5 task1
    { task1 with status := TaskStatus.completed }
    (putTasks alice 1 { status := some TaskStatus.completed } 9 true stC5).2
    rfl rfl rfl rfl rfl rfl

/-- C6: when the acting user's workspace-role is exactly `member` and the
requested assignee differs from the acting user, task creation responds 403
and leaves the store untouched; when the workspace-role is `leader` or
`admin`, the call succeeds with the requested assignee — any assignee the
store's foreign keys admit (the assignee and the acting user exist in the
users table, and the project's workspace exists, so the insert and the
activity append commit), member of the workspace or not. -/
theorem createTask_member_only_self_assignment
    (actor : User) (projectId : Nat) (body : TaskBody) (now : Nat) (st : State)
    (project : Project) (wm : WorkspaceMember)
    (hp : getProject st projectId = some project)
    (hm : getWorkspaceMember st project.workspaceId actor.id = some wm) :
    (wm.role = Role.member → body.assigneeId ≠ actor.id →
        postProjectTasks actor projectId body now true st
          = (Resp.err 403 "Members can only create tasks for themselves", st)) ∧
      (wm.role ≠ Role.member →
        (getUser st body.assigneeId).isSome = true →
        (getUser st actor.id).isSome = true →
        (getWorkspace st project.workspaceId).isSome = true →
        ∃ t st2, postProjectTasks actor projectId body now true st = (Resp.ok 201 t, st2)
          ∧ t.assigneeId = body.assigneeId) := by
  constructor
  · intro hrole hne
    simp [postProjectTasks, hp, hm, hrole, hne]
  · intro hrole hassignee hactor hws
    have hcond : (wm.role == Role.member && body.assigneeId != actor.id) = false := by
      simp [hrole]
    have hct : ((some project).isSome && (getUser st body.assigneeId).isSome
        && (getUser st actor.id).isSome) = true := by
      simp [hassignee, hactor]
    simp only [postProjectTasks, hp, hm, hcond, Bool.false_eq_true, if_false, createTask]
    try dsimp only
    rw [if_pos hct]
    try dsimp only
    unfold createActivity
    rw [getUser_after_task_insert, getWorkspace_after_task_insert]
    have hca : ((getUser st actor.id).isSome
        && (getWorkspace st project.workspaceId).isSome) = true := by
      simp [hactor, hws]
    rw [if_pos hca]
    exact ⟨_, _, rfl, rfl⟩

/-- Witness for C6 at Bob, a plain member of workspace 1, requesting an
assignee other than himself. -/
theorem createTask_member_only_self_assignment_witness :
    (({ id := 1, workspaceId := 1, userId := 2, role := Role.member } :
          WorkspaceMember).role = Role.member →
        ({ title := "T", assigneeId := 3 } : TaskBody).assigneeId ≠ bob.id →
        postProjectTasks bob 1 { title := "T", assigneeId := 3 } 8 true stC4w
          = (Resp.err 403 "Members can only create tasks for themselves", stC4w)) ∧
      (({ id := 1, workspaceId := 1, userId := 2, role := Role.member } :
          WorkspaceMember).role ≠ Role.member →
        (getUser stC4w ({ title := "T", assigneeId := 3 } : TaskBody).assigneeId).isSome
            = true →
        (getUser stC4w bob.id).isSome = true →
        (getWorkspace stC4w project1.workspaceId).isSome = true →
        ∃ t st2,
          postProjectTasks bob 1 { title := "T", assigneeId := 3 } 8 true stC4w
            = (Resp.ok 201 t, st2)
          ∧ t.assigneeId = ({ title := "T", assigneeId := 3 } : TaskBody).assigneeId) :=
  createTask_member_only_self_assignment bob 1 { title := "T", assigneeId := 3 } 8 stC4w
    project1 { id := 1, workspaceId := 1, userId := 2, role := Role.member } rfl rfl

/-- User whose global role is `member` but who holds workspace-role `admin`
in workspace 1 under `stC7`. -/
def dave : User :=
  { id := 5, username := "dave", password := "pw", email := "d@example.com",
    name := "Dave", role := Role.member, avatarUrl := none }

/-- State in which Dave (global `member`) is enrolled as workspace-role
`admin` of workspace 1, with one stored feedback row. -/
def stC7 : State :=
  { emptyState with
    users := [alice, bob, dave], workspaces := [ws1],
    workspaceMembers := [{ id := 1, workspaceId := 1, userId := 5, role := Role.admin }],
    feedback := [feedback1],
    nextWorkspaceId := 2, nextWorkspaceMemberId := 2, nextFeedbackId := 2 }

/-- C7 counterexample: Dave holds workspace-role `admin` in workspace 1, yet
his feedback list call is rejected 403 by the `isLeader` middleware because
his global role is `member` — so workspace-role admin/leader does not
suffice for the claimed Allowed outcome. -/
theorem listFeedback_forbidden_for_workspace_admin_with_global_member_role :
    getWorkspaceFeedback dave 1 stC7
        = Resp.err 403 "Forbidden - Leader access required" ∧
      getWorkspaceMember stC7 1 dave.id
        = some { id := 1, workspaceId := 1, userId := 5, role := Role.admin } :=
  ⟨rfl, rfl⟩

/-- C7 amended: the feedback list call succeeds exactly when the acting
user's global role is `leader` or `admin` (the `isLeader` middleware) and
their workspace-role in the target workspace is `leader` or `admin`; in
particular every workspace-role `member` caller is Forbidden, and so is a
workspace admin or leader whose global role is `member`. -/
theorem listFeedback_allowed_iff_global_and_workspace_role
    (actor : User) (workspaceId : Nat) (st : State) :
    (getWorkspaceFeedback actor workspaceId st).isOk = true ↔
      ((actor.role = Role.leader ∨ actor.role = Role.admin) ∧
        ∃ m, getWorkspaceMember st workspaceId actor.id = some m ∧
          (m.role = Role.leader ∨ m.role = Role.admin)) := by
  unfold getWorkspaceFeedback
  by_cases hg : actor.role = Role.leader ∨ actor.role = Role.admin
  · cases hm : getWorkspaceMember st workspaceId actor.id with
    | none => simp [hg, hm, Resp.isOk]
    | some m =>
      by_cases hr : m.role = Role.leader ∨ m.role = Role.admin
      · rcases hr with h | h <;> simp [hg, hm, h, Resp.isOk]
      · push_neg at hr
        simp [hg, hm, hr.1, hr.2, Resp.isOk]
  · push_neg at hg
    simp [hg.1, hg.2, Resp.isOk]

/-- Sample user with id 42 for the duplicate-insertion scenario. -/
def frank : User :=
  { id := 42, username := "frank", password := "pw", email := "f@example.com",
    name := "Frank", role := Role.member, avatarUrl := none }

/-- State for exercising duplicate member insertion: workspace 1 exists with
no members yet, and user 42 exists so the inserts satisfy the foreign keys. -/
def stC8 : State :=
  { emptyState with users := [alice, frank], workspaces := [ws1], nextWorkspaceId := 2 }

/-- First add of the pair (workspace 1, user 42). -/
def c8Step1 : Resp WorkspaceMember × State :=
  postWorkspaceMembers alice 1 { userId := 42 } 3 stC8

/-- Second, duplicate add of the same pair (workspace 1, user 42), run on the
state the first add produced. -/
def c8Step2 : Resp WorkspaceMember × State :=
  postWorkspaceMembers alice 1 { userId := 42 } 4 c8Step1.2

/-- C8 counterexample: the duplicate add of the identical
(workspaceId, userId) pair succeeds with 201 — not an "already a member"
outcome — and afterwards the workspace_members table holds two rows for the
pair, so the at-most-one-row invariant fails in a reachable state. -/
theorem addWorkspaceMember_duplicate_pair_rows :
    c8Step1.1.isOk = true ∧
      c8Step2.1 = Resp.ok 201
        { id := 2, workspaceId := 1, userId := 42, role := Role.member } ∧
      (c8Step2.2.workspaceMembers.filter
          (fun m => m.workspaceId == 1 && m.userId == 42)).length = 2 :=
  ⟨rfl, rfl, rfl⟩

/-- C8 amended: neither the route nor the store nor the schema deduplicates
(workspaceId, userId) — every authorized add of an existing user on an
existing workspace succeeds and appends one more row for the pair, whether
or not rows for the pair already exist. -/
theorem addWorkspaceMember_appends_duplicate_row
    (actor : User) (workspaceId : Nat) (body : WorkspaceMemberBody) (now : Nat)
    (st : State)
    (hadm : actor.role = Role.admin)
    (hws : (getWorkspace st workspaceId).isSome = true)
    (htarget : (getUser st body.userId).isSome = true)
    (hactor : (getUser st actor.id).isSome = true) :
    (postWorkspaceMembers actor workspaceId body now st).1.isOk = true ∧
      ((postWorkspaceMembers actor workspaceId body now st).2.workspaceMembers.filter
          (fun m => m.workspaceId == workspaceId && m.userId == body.userId)).length
        = (st.workspaceMembers.filter
            (fun m => m.workspaceId == workspaceId && m.userId == body.userId)).length
            + 1 := by
  cases hg : getWorkspace st workspaceId with
  | none => rw [hg] at hws; simp at hws
  | some w =>
    constructor
    · simp [postWorkspaceMembers, hadm, hg, addWorkspaceMember, createActivity,
        htarget, hactor, hws, getUser_after_member_insert,
        getWorkspace_after_member_insert, Resp.isOk]
    · simp [postWorkspaceMembers, hadm, hg, addWorkspaceMember, createActivity,
        htarget, hactor, hws, getUser_after_member_insert,
        getWorkspace_after_member_insert, List.filter_append]

/-- Witness for C8's amended statement: the add of the existing user 42 out
of `stC8` grows the pair's row count from 0 to 1. -/
theorem addWorkspaceMember_appends_duplicate_row_witness :
    (postWorkspaceMembers alice 1 { userId := 42 } 3 stC8).1.isOk = true ∧
      ((postWorkspaceMembers alice 1 { userId := 42 } 3 stC8).2.workspaceMembers.filter
          (fun m => m.workspaceId == 1 && m.userId == 42)).length
        = (stC8.workspaceMembers.filter
            (fun m => m.workspaceId == 1 && m.userId == 42)).length + 1 :=
  addWorkspaceMember_appends_duplicate_row alice 1 { userId := 42 } 3 stC8 rfl rfl rfl rfl

/-- C9 counterexample: a task creation whose authorization and task insert
succeed but whose activity append fails responds 500 "Failed to create
task" even though the task row is already committed — the recording failure
is surfaced as an error response. -/
theorem createTask_activity_failure_surfaces_error :
    (postProjectTasks bob 1 { title := "T", assigneeId := 2 } 8 false stC4w).1
        = Resp.err 500 "Failed to create task" ∧
      (postProjectTasks bob 1 { title := "T", assigneeId := 2 } 8 false stC4w).2.tasks
        = [{ id := 1, title := "T", description := none, status := TaskStatus.todo,
             priority := TaskPriority.medium, progress := 0, projectId := 1,
             assigneeId := 2, createdById := 2, deadline := none, createdAt := 8 }] :=
  ⟨rfl, rfl⟩

/-- C9 amended: when the primary task insert succeeds (the request is
authorized and the insert's foreign keys are satisfied) and the subsequent
activity append fails, the task row stays persisted, but the route's
catch-all reports the whole operation as a 500 error to the caller instead
of swallowing the recording failure. -/
theorem createTask_activity_failure_keeps_write_reports_500
    (actor : User) (projectId : Nat) (body : TaskBody) (now : Nat) (st : State)
    (project : Project) (wm : WorkspaceMember)
    (hp : getProject st projectId = some project)
    (hm : getWorkspaceMember st project.workspaceId actor.id = some wm)
    (hcond : (wm.role == Role.member && body.assigneeId != actor.id) = false)
    (hassignee : (getUser st body.assigneeId).isSome = true)
    (hactor : (getUser st actor.id).isSome = true) :
    (postProjectTasks actor projectId body now false st).1
        = Resp.err 500 "Failed to create task" ∧
      ∃ t, (postProjectTasks actor projectId body now false st).2.tasks
        = st.tasks ++ [t] := by
  have hct : ((some project).isSome && (getUser st body.assigneeId).isSome
      && (getUser st actor.id).isSome) = true := by
    simp [hassignee, hactor]
  simp only [postProjectTasks, hp, hm, hcond, Bool.false_eq_true, if_false, createTask]
  try dsimp only
  rw [if_pos hct]
  exact ⟨rfl, _, rfl⟩

/-- Witness for C9's amended statement at Bob's self-assigned task creation
with a failing activity append. -/
theorem createTask_activity_failure_keeps_write_reports_500_witness :
    (postProjectTasks bob 1 { title := "U", assigneeId := 2 } 9 false stC4w).1
        = Resp.err 500 "Failed to create task" ∧
      ∃ t, (postProjectTasks bob 1 { title := "U", assigneeId := 2 } 9 false stC4w).2.tasks
        = stC4w.tasks ++ [t] :=
  createTask_activity_failure_keeps_write_reports_500 bob 1 { title := "U", assigneeId := 2 }
    9 stC4w project1 { id := 1, workspaceId := 1, userId := 2, role := Role.member }
    rfl rfl rfl rfl rfl

/-- State for exercising project-member addition: Alice is workspace-role
admin of workspace 1 owning project 1; Bob is not a workspace member. -/
def stC10 : State :=
  { emptyState with
    users := [alice, bob], workspaces := [ws1], projects := [project1],
    workspaceMembers := [{ id := 1, workspaceId := 1, userId := 1, role := Role.admin }],
    nextWorkspaceId := 2, nextWorkspaceMemberId := 2 }

/-- C10: an authorized addProjectMember call whose target user holds no
WorkspaceMember record in the project's workspace is rejected with the
dedicated 400 "User must be a member of the workspace first" response and
the state is returned untouched: no ProjectMember row is inserted and the
target is not silently added to the workspace. -/
theorem addProjectMember_rejects_nonmember_target
    (actor : User) (projectId : Nat) (body : ProjectMemberBody) (now : Nat) (st : State)
    (project : Project) (wm : WorkspaceMember)
    (hgl : actor.role = Role.leader ∨ actor.role = Role.admin)
    (hp : getProject st projectId = some project)
    (hm : getWorkspaceMember st project.workspaceId actor.id = some wm)
    (hrole : wm.role = Role.leader ∨ wm.role = Role.admin)
    (htarget : isWorkspaceMember st project.workspaceId body.userId = false) :
    postProjectMembers actor projectId body now st
      = (Resp.err 400 "User must be a member of the workspace first", st) := by
  have hc1 : (actor.role == Role.leader || actor.role == Role.admin) = true := by
    rcases hgl with h | h <;> simp [h]
  have hc2 : (wm.role != Role.leader && wm.role != Role.admin) = false := by
    rcases hrole with h | h <;> simp [h]
  simp [postProjectMembers, hc1, hp, hm, hc2, htarget]

/-- Witness for C10 at the admin Alice adding the non-member Bob to
project 1. -/
theorem addProjectMember_rejects_nonmember_target_witness :
    postProjectMembers alice 1 { userId := 2 } 6 stC10
      = (Resp.err 400 "User must be a member of the workspace first", stC10) :=
  addProjectMember_rejects_nonmember_target alice 1 { userId := 2 } 6 stC10 project1
    { id := 1, workspaceId := 1, userId := 1, role := Role.admin }
    (Or.inr rfl) rfl rfl (Or.inr rfl) rfl

end Collabmate
